import Mathlib

/-!
Verification development for the payment micro-service webhook pipeline.

The JavaScript source is shallowly embedded: each handler becomes a pure
Lean function from its inputs and an oracle `World` (the outcomes of the
external HTTP / billing-provider calls it makes) to the ordered list of
outbound calls it performs (`Action` trace) together with its result
(`Except Err Unit`, where `.error` models a thrown exception).
-/

namespace Payment

/-- Character-list head test: true when the first list is an initial
segment of the second. -/
def leadsWith : List Char → List Char → Bool
  | [], _ => true
  | _ :: _, [] => false
  | p :: ps, c :: cs => p == c && leadsWith ps cs

/-- Character-list containment of one list inside another. -/
def occursIn : List Char → List Char → Bool
  | pat, [] => leadsWith pat []
  | pat, c :: cs => leadsWith pat (c :: cs) || occursIn pat cs

/-- Substring test: true when `pat` occurs somewhere in `s`
(models the JavaScript `String.prototype.includes`). -/
def hasSub (s pat : String) : Bool :=
  occursIn pat.data s.data

/-- Error value thrown by an external call: an optional Node.js error
code (e.g. ECONNREFUSED) and a message, mirroring the fields the source
inspects (`error.code`, `error.message`). -/
structure Err where
  code : Option String
  message : String
deriving Repr, DecidableEq

/-! ## Notification dispatcher (sendSubscriptionNotification, stripeService.js 472-626) -/

/-- Outbound network action of the notification dispatcher. The optional
Nat is the axios timeout configured on the call, in milliseconds
(the health GET is issued with no config at all, the POST with 10000). -/
inductive NAct
  | healthGet (timeoutMs : Option Nat)
  | postNotif (path : String) (timeoutMs : Option Nat)
  | wait (ms : Nat)
deriving Repr, DecidableEq

/-- Oracle for the notification service: outcome of the GET /health and of
the POST on each attempt number (0 = first attempt, n = n-th retry). -/
structure NotifWorld where
  health : Nat → Except Err Unit
  post : Nat → Except Err Unit

/-- Retry bound from the source: `const maxRetries = 3`. -/
def maxRetries : Nat := 3

/-- Base backoff delay from the source: `const initialBackoff = 1000`. -/
def initialBackoff : Nat := 1000

/-- Connection-level error codes listed in the retry classification of
`attemptSend` (stripeService.js 600-605). -/
def retryableCode (c : String) : Bool :=
  c == "ECONNREFUSED" || c == "ETIMEDOUT" || c == "ECONNABORTED" || c == "ENOTFOUND"

/-- Retry classification from the source: retry iff the error has one of
the connection codes or its message contains the substring "timeout". -/
def connRetry (e : Err) : Bool :=
  (match e.code with
   | some c => retryableCode c
   | none => false) || hasSub e.message "timeout"

/-- Re-wrapping of a health pre-check failure (stripeService.js 571):
`throw new Error(...)` builds a fresh Error, which carries no `code`. -/
def wrapHealthErr (e : Err) : Err :=
  { code := none, message := "Service de notification inaccessible: " ++ e.message }

/-- Embedding of the recursive `attemptSend` closure
(stripeService.js 559-622). Each attempt first GETs /health (no timeout
configured); on health failure the error is re-wrapped by `wrapHealthErr`
and the POST is skipped; otherwise the POST (timeout 10000ms) runs. A
failure classified by `connRetry` is retried while `currentRetry <
maxRetries`, sleeping `initialBackoff * 2 ^ currentRetry` ms first;
any other failure (or retry exhaustion) is thrown to the caller. -/
def attemptSend (w : NotifWorld) (path : String) (currentRetry : Nat) :
    List NAct × Except Err Unit :=
  match w.health currentRetry with
  | .error e =>
      let wrapped := wrapHealthErr e
      if h : connRetry wrapped = true ∧ currentRetry < maxRetries then
        let backoff := initialBackoff * 2 ^ currentRetry
        let rest := attemptSend w path (currentRetry + 1)
        (NAct.healthGet none :: NAct.wait backoff :: rest.1, rest.2)
      else
        ([NAct.healthGet none], .error wrapped)
  | .ok _ =>
      match w.post currentRetry with
      | .ok _ =>
          ([NAct.healthGet none, NAct.postNotif path (some 10000)], .ok ())
      | .error e =>
          if h : connRetry e = true ∧ currentRetry < maxRetries then
            let backoff := initialBackoff * 2 ^ currentRetry
            let rest := attemptSend w path (currentRetry + 1)
            (NAct.healthGet none :: NAct.postNotif path (some 10000) ::
               NAct.wait backoff :: rest.1, rest.2)
          else
            ([NAct.healthGet none, NAct.postNotif path (some 10000)], .error e)
termination_by maxRetries + 1 - currentRetry
decreasing_by
  all_goals exact Nat.sub_lt_sub_left (Nat.lt_succ_of_lt h.2) (Nat.lt_succ_self _)

/-- Endpoint path chosen by the `switch (type)` of
sendSubscriptionNotification (stripeService.js 494-548); `none` models
the `default` branch that throws "Type de notification non pris en
charge". -/
def endpointFor (category : String) : Option String :=
  match category with
  | "new" => some "/notifications/subscription/start"
  | "ended" => some "/notifications/subscription/cancelled"
  | "cancelled" => some "/notifications/subscription/cancelled"
  | "payment_failed" => some "/notifications/subscription/payment-failed"
  | "cancellation_scheduled" => some "/notifications/subscription/expiring-soon"
  | "reactivated" => some "/notifications/subscription/reactivated"
  | _ => none

/-- Shape of the payload built alongside the endpoint: every supported
category wraps a `subscriptionData` object except payment_failed, which
wraps `paymentData` (stripeService.js 494-548). -/
inductive PayloadShape
  | subscriptionData
  | paymentData
deriving Repr, DecidableEq

/-- Payload shape per category, read off the same switch statement. -/
def payloadShapeFor (category : String) : Option PayloadShape :=
  match category with
  | "new" => some .subscriptionData
  | "ended" => some .subscriptionData
  | "cancelled" => some .subscriptionData
  | "cancellation_scheduled" => some .subscriptionData
  | "reactivated" => some .subscriptionData
  | "payment_failed" => some .paymentData
  | _ => none

/-- Email validation from the source (stripeService.js 484): accepted iff
non-empty and containing the character @ (the `typeof` check is vacuous
in this typed embedding). -/
def validEmail (email : String) : Bool :=
  !(email == "") && email.data.any (fun c => c == '@')

/-- Embedding of sendSubscriptionNotification (stripeService.js 472-626):
validate the email, map the category through the switch, then run
`attemptSend` starting at retry counter 0. Both validation failures are
thrown before any network action. -/
def sendSubscriptionNotification (w : NotifWorld) (email category : String) :
    List NAct × Except Err Unit :=
  if validEmail email = false then
    ([], .error ⟨none, "Email invalide ou manquant: \"" ++ email ++ "\""⟩)
  else
    match endpointFor category with
    | none => ([], .error ⟨none, "Type de notification non pris en charge: " ++ category⟩)
    | some path => attemptSend w path 0

/-! ## Webhook event handlers (stripeService.js 84-467)

Each handler is embedded as a pure function from the event's data object
and a `World` (oracle for the outcomes of every external call) to the
ordered trace of outbound calls (`List Action`) and its result; `.error`
models a thrown exception reaching the handler's caller. -/

/-- Detail of a billing-provider subscription object, carrying exactly the
fields the handlers read (`items.data[0].price.product.name` and
`items.data[0].price.unit_amount` are flattened to `productName` /
`unit_amount`; a `none` models an absent/falsy field). -/
structure SubDetail where
  id : String
  customer : String
  status : String
  current_period_start : Nat
  current_period_end : Nat
  cancel_at_period_end : Bool
  productName : Option String
  unit_amount : Nat
  currency : Option String
deriving Repr, DecidableEq

/-- Dynamic `event.data.object` of a webhook event: one loosely-typed
record carrying every field any handler reads (mirroring the untyped
JavaScript object). `customerMock` is `some e` when the test field
`_customerMock` is present with email `e` (possibly empty). -/
structure EventObj where
  id : String
  customer : String
  subscription : String
  status : String
  cancel_at_period_end : Bool
  current_period_end : Nat
  amount_due : Nat
  currency : String
  customerMock : Option String
  subscriptionMock : Option SubDetail
deriving Repr, DecidableEq

/-- Body of a PUT users/subscription/{email} call. The outer Option marks
whether the field is present in the JSON body at all; the inner Option is
an explicit null. Timestamps are epoch milliseconds. -/
structure UserUpdate where
  isSubscribed : Option Bool
  subscriptionId : Option (Option String)
  numSubscriptionId : Option (Option String)
  subscriptionEndDate : Option (Option Nat)
deriving Repr, DecidableEq

/-- Body of the POST /subscriptions call built by the checkout handler
(stripeService.js 173-187). `amount` uses Nat division for the JS
`unit_amount / 100`. -/
structure SubscriptionData where
  userId : String
  planType : String
  startDate : Nat
  endDate : Nat
  status : String
  stripeSubscriptionId : String
  stripeCustomerId : String
  isActive : Bool
  autoRenew : Bool
  lastPaymentDate : Nat
  nextPaymentDate : Nat
  amount : Nat
  currency : String
deriving Repr, DecidableEq

/-- Outbound call recorded in a handler trace. Stripe retrievals made
inside sendInvoiceEmail are collapsed into one `stripeGetInvoice`. -/
inductive Action
  | stripeGetCustomer (customerId : String)
  | stripeGetSubscription (subId : String)
  | stripeGetInvoice (invoiceId : String)
  | dbGetUser (email : String)
  | dbPostSubscription (d : SubscriptionData)
  | dbPutUserSub (email : String) (u : UserUpdate)
  | dbHealth
  | notifySend (email : String) (category : String)
  | invoiceEmailSend (email : String)
deriving Repr, DecidableEq

/-- Oracle for every external collaborator a handler calls. Results are
functions of the call arguments (a pure world: repeating a call with the
same arguments yields the same outcome). `notify` stands for the outcome
of the whole sendSubscriptionNotification call, `invoicePost` for the
POST /notifications/invoice inside sendInvoiceEmail. -/
structure World where
  customerEmail : String → Except Err String
  subscriptionDetail : String → Except Err SubDetail
  dbUserId : String → Except Err String
  dbCreateSubscription : SubscriptionData → Except Err String
  dbPutUser : String → UserUpdate → Except Err Unit
  dbHealthCheck : Except Err Unit
  notify : String → String → Except Err Unit
  invoicePost : String → Except Err Unit

/-- Usable mock email: the JS condition `obj._customerMock &&
obj._customerMock.email` (an empty email string is falsy). -/
def mockEmail (m : Option String) : Option String :=
  match m with
  | some e => if e == "" then none else some e
  | none => none

/-- Shared embedding of the idiom repeated at the top of four handlers:
use the mock email when usable, otherwise retrieve the Stripe customer
and take its email; a retrieval failure is rethrown. -/
def resolveEmail (w : World) (mock : Option String) (customerId : String) :
    List Action × Except Err String :=
  match mockEmail mock with
  | some e => ([], .ok e)
  | none => ([Action.stripeGetCustomer customerId], w.customerEmail customerId)

/-- Embedding of handleSubscriptionUpdated (stripeService.js 330-358):
resolve the email, then send cancellation_scheduled when
cancel_at_period_end, reactivated when status is active and
cancel_at_period_end is false, nothing otherwise. No database call is
made; a notification failure is rethrown by the outer catch. -/
def handleSubscriptionUpdated (w : World) (sub : EventObj) :
    List Action × Except Err Unit :=
  match resolveEmail w sub.customerMock sub.customer with
  | (acts, .error e) => (acts, .error e)
  | (acts, .ok email) =>
      if sub.cancel_at_period_end then
        (acts ++ [Action.notifySend email "cancellation_scheduled"],
         w.notify email "cancellation_scheduled")
      else if sub.status == "active" && sub.cancel_at_period_end == false then
        (acts ++ [Action.notifySend email "reactivated"],
         w.notify email "reactivated")
      else
        (acts, .ok ())

/-- User-record update written by handleSubscriptionDeleted
(stripeService.js 379-383): isSubscribed false, subscriptionId null,
subscriptionEndDate now. -/
def deletedUserUpdate (now : Nat) : UserUpdate :=
  { isSubscribed := some false, subscriptionId := some none,
    numSubscriptionId := none, subscriptionEndDate := some (some now) }

/-- Embedding of handleSubscriptionDeleted (stripeService.js 363-402):
resolve the email, PUT the user record (the inner try/catch swallows any
failure of this PUT, so its oracle outcome does not affect the result),
then send the ended notification, whose failure is rethrown. -/
def handleSubscriptionDeleted (w : World) (now : Nat) (sub : EventObj) :
    List Action × Except Err Unit :=
  match resolveEmail w sub.customerMock sub.customer with
  | (acts, .error e) => (acts, .error e)
  | (acts, .ok email) =>
      (acts ++ [Action.dbPutUserSub email (deletedUserUpdate now),
                Action.notifySend email "ended"],
       w.notify email "ended")

/-- Body of the PUT issued by updateUserSubscriptionEnd: only the
subscriptionEndDate field (stripeService.js 451-453). -/
def endDateUpdate (endMs : Nat) : UserUpdate :=
  { isSubscribed := none, subscriptionId := none,
    numSubscriptionId := none, subscriptionEndDate := some (some endMs) }

/-- Embedding of updateUserSubscriptionEnd (stripeService.js 442-467):
skip entirely when the database URL is falsy or contains "undefined";
otherwise PUT the end date once, swallowing ECONNREFUSED / ENOTFOUND
failures (logged as simulated test-mode success) and rethrowing any
other failure untouched. -/
def updateUserSubscriptionEnd (w : World) (dbUrl : String) (email : String)
    (endMs : Nat) : List Action × Except Err Unit :=
  if dbUrl == "" || hasSub dbUrl "undefined" then
    ([], .ok ())
  else
    ([Action.dbPutUserSub email (endDateUpdate endMs)],
     match w.dbPutUser email (endDateUpdate endMs) with
     | .ok _ => .ok ()
     | .error e =>
         if e.code == some "ECONNREFUSED" || e.code == some "ENOTFOUND" then
           .ok ()
         else .error e)

/-- Embedding of sendInvoiceEmail (stripeService.js 631-693): when no
mock is present, retrieve invoice details from Stripe (all retrieval
failures are swallowed, they only affect email contents), then POST
/notifications/invoice; a POST failure is rethrown. -/
def sendInvoiceEmail (w : World) (email : String) (inv : EventObj) :
    List Action × Except Err Unit :=
  let pre : List Action :=
    if inv.customerMock.isSome then [] else [Action.stripeGetInvoice inv.id]
  (pre ++ [Action.invoiceEmailSend email], w.invoicePost email)

/-- Resolution step of handleInvoicePaid (stripeService.js 270-281):
the mock path fabricates a period end 2592000 seconds from now;
otherwise the subscription and then the customer are retrieved from the
provider, failures rethrown. -/
def resolveInvoice (w : World) (now : Nat) (inv : EventObj) :
    List Action × Except Err (String × Nat) :=
  match mockEmail inv.customerMock with
  | some e => ([], .ok (e, now / 1000 + 2592000))
  | none =>
      match w.subscriptionDetail inv.subscription with
      | .error er => ([Action.stripeGetSubscription inv.subscription], .error er)
      | .ok sub =>
          match w.customerEmail inv.customer with
          | .error er =>
              ([Action.stripeGetSubscription inv.subscription,
                Action.stripeGetCustomer inv.customer], .error er)
          | .ok e =>
              ([Action.stripeGetSubscription inv.subscription,
                Action.stripeGetCustomer inv.customer],
               .ok (e, sub.current_period_end))

/-- Embedding of handleInvoicePaid (stripeService.js 268-295): resolve
email and period end, update the user's subscription end date, then send
the invoice email. Failures of resolution, of updateUserSubscriptionEnd,
or of sendInvoiceEmail are rethrown. No subscription-category
notification is sent. -/
def handleInvoicePaid (w : World) (now : Nat) (dbUrl : String) (inv : EventObj) :
    List Action × Except Err Unit :=
  match resolveInvoice w now inv with
  | (acts, .error e) => (acts, .error e)
  | (acts, .ok (email, periodEnd)) =>
      match updateUserSubscriptionEnd w dbUrl email (periodEnd * 1000) with
      | (acts2, .error e) => (acts ++ acts2, .error e)
      | (acts2, .ok _) =>
          match sendInvoiceEmail w email inv with
          | (acts3, r) => (acts ++ acts2 ++ acts3, r)

/-- Embedding of handlePaymentFailed (stripeService.js 300-325): resolve
the email, then send the payment_failed notification; its failure is
rethrown. -/
def handlePaymentFailed (w : World) (inv : EventObj) :
    List Action × Except Err Unit :=
  match resolveEmail w inv.customerMock inv.customer with
  | (acts, .error e) => (acts, .error e)
  | (acts, .ok email) =>
      (acts ++ [Action.notifySend email "payment_failed"],
       w.notify email "payment_failed")

/-- Subscription record posted to the database by the checkout handler
(stripeService.js 173-187). -/
def checkoutSubscriptionData (userId : String) (sub : SubDetail) (now : Nat) :
    SubscriptionData :=
  let endDate := sub.current_period_end * 1000
  { userId := userId
    planType := sub.productName.getD "Service Premium"
    startDate := sub.current_period_start * 1000
    endDate := endDate
    status := sub.status
    stripeSubscriptionId := sub.id
    stripeCustomerId := sub.customer
    isActive := sub.status == "active"
    autoRenew := !sub.cancel_at_period_end
    lastPaymentDate := now
    nextPaymentDate := endDate
    amount := sub.unit_amount / 100
    currency := sub.currency.getD "eur" }

/-- Subscription-detail block of the checkout handler (stripeService.js
155-217): take the mock when present, else retrieve from Stripe (failure
swallowed by the stripeError catch); on success POST the record to the
database, and on POST failure (also swallowed) probe the database /health
endpoint. Returns the trace, the retrieved detail if any, and the new
database record id if the POST succeeded. -/
def checkoutSubBlock (w : World) (userId : String) (s : EventObj) (now : Nat) :
    List Action × Option SubDetail × Option String :=
  let post : List Action → SubDetail → List Action × Option SubDetail × Option String :=
    fun pre sub =>
      let d := checkoutSubscriptionData userId sub now
      match w.dbCreateSubscription d with
      | .ok sid => (pre ++ [Action.dbPostSubscription d], some sub, some sid)
      | .error _ => (pre ++ [Action.dbPostSubscription d, Action.dbHealth], some sub, none)
  match s.subscriptionMock with
  | some m => post [] m
  | none =>
      match w.subscriptionDetail s.subscription with
      | .error _ => ([Action.stripeGetSubscription s.subscription], none, none)
      | .ok sub => post [Action.stripeGetSubscription s.subscription] sub

/-- User-record update written by the checkout handler (stripeService.js
226-231): isSubscribed true, the session's provider subscription id, the
database record id when the POST succeeded (field absent otherwise), and
the period end (explicit null when the detail is missing or its period
end is falsy). -/
def checkoutUserUpdate (sessionSubscription : String) (subOpt : Option SubDetail)
    (sid : Option String) : UserUpdate :=
  { isSubscribed := some true
    subscriptionId := some (some sessionSubscription)
    numSubscriptionId := sid.map some
    subscriptionEndDate := some
      (match subOpt with
       | some sub =>
           if sub.current_period_end == 0 then none
           else some (sub.current_period_end * 1000)
       | none => none) }

/-- Embedding of handleCheckoutSessionCompleted (stripeService.js
125-263). Email resolution and the first user lookup rethrow failures;
everything after them (subscription retrieval and creation, user-record
update, notification) swallows its own failures, so once the first two
steps succeed the handler returns success. -/
def handleCheckoutSessionCompleted (w : World) (now : Nat) (s : EventObj) :
    List Action × Except Err Unit :=
  match resolveEmail w s.customerMock s.customer with
  | (acts, .error e) => (acts, .error e)
  | (acts, .ok email) =>
      match w.dbUserId email with
      | .error e => (acts ++ [Action.dbGetUser email], .error e)
      | .ok userId =>
          let acts1 := acts ++ [Action.dbGetUser email]
          match checkoutSubBlock w userId s now with
          | (acts3, subOpt, sid) =>
              let acts4 : List Action :=
                match w.dbUserId email with
                | .error _ => [Action.dbGetUser email]
                | .ok _ =>
                    [Action.dbGetUser email,
                     Action.dbPutUserSub email
                       (checkoutUserUpdate s.subscription subOpt sid)]
              (acts1 ++ acts3 ++ acts4 ++ [Action.notifySend email "new"], .ok ())

/-- Webhook event record as passed to handleWebhookEvent. -/
structure EventRec where
  id : String
  type : String
  obj : EventObj
deriving Repr, DecidableEq

/-- Embedding of handleWebhookEvent (stripeService.js 84-120): the switch
over event.type; an unrecognized type is logged and the function returns
success with no outbound call. A handler failure is rethrown. -/
def handleWebhookEvent (w : World) (now : Nat) (dbUrl : String) (e : EventRec) :
    List Action × Except Err Unit :=
  match e.type with
  | "checkout.session.completed" => handleCheckoutSessionCompleted w now e.obj
  | "invoice.paid" => handleInvoicePaid w now dbUrl e.obj
  | "invoice.payment_failed" => handlePaymentFailed w e.obj
  | "customer.subscription.updated" => handleSubscriptionUpdated w e.obj
  | "customer.subscription.deleted" => handleSubscriptionDeleted w now e.obj
  | _ => ([], .ok ())

/-- Names for the five event handlers, for stating the dispatch claim. -/
inductive HandlerId
  | checkout
  | invoicePaid
  | paymentFailed
  | subUpdated
  | subDeleted
deriving Repr, DecidableEq

/-- Handler selected for an event type, read off the switch statement. -/
def dispatchTarget (ty : String) : Option HandlerId :=
  match ty with
  | "checkout.session.completed" => some .checkout
  | "invoice.paid" => some .invoicePaid
  | "invoice.payment_failed" => some .paymentFailed
  | "customer.subscription.updated" => some .subUpdated
  | "customer.subscription.deleted" => some .subDeleted
  | _ => none

/-- Runs the single named handler. -/
def runHandler (w : World) (now : Nat) (dbUrl : String) (h : HandlerId)
    (obj : EventObj) : List Action × Except Err Unit :=
  match h with
  | .checkout => handleCheckoutSessionCompleted w now obj
  | .invoicePaid => handleInvoicePaid w now dbUrl obj
  | .paymentFailed => handlePaymentFailed w obj
  | .subUpdated => handleSubscriptionUpdated w obj
  | .subDeleted => handleSubscriptionDeleted w now obj

/-- Closed dispatch set of recognized event types. -/
def dispatchSet : List String :=
  ["checkout.session.completed", "invoice.paid", "invoice.payment_failed",
   "customer.subscription.updated", "customer.subscription.deleted"]

/-! ## Webhook route (POST /webhook, routes file 113-223) -/

/-- Parsed JSON body of a webhook request, carrying the fields the route
inspects. `dataObject` is `data.object`; `customerMock` the top-level
test field `_customerMock` (its email). A `none` body models a JSON.parse
failure. -/
structure RawPayload where
  id : Option String
  type : Option String
  dataObject : Option EventObj
  customerMock : Option String
deriving Repr, DecidableEq

/-- Request headers the route reads. -/
structure Headers where
  stripeSignature : Option String
  xTestMode : Option String
  xRequestId : Option String
deriving Repr, DecidableEq

/-- HTTP response of the route. -/
inductive RouteResponse
  | ok200
  | badRequest (msg : String)
  | serverError (msg : String)
deriving Repr, DecidableEq

/-- Outcome of the route: the response, whether the trusted bypass path
built the event (as opposed to signed verification), and the event
processed if any. -/
structure RouteOutcome where
  response : RouteResponse
  bypassUsed : Bool
  event : Option EventRec
deriving Repr, DecidableEq

/-- JavaScript truthiness of an optional header / field (absent or empty
string is falsy). -/
def truthy (o : Option String) : Bool :=
  match o with
  | some s => !(s == "")
  | none => false

/-- Test-mode detection of the route (routes file 148): the x-test-mode
header equals "true", or the x-request-id header contains "test". -/
def isTestMode (h : Headers) : Bool :=
  h.xTestMode == some "true" ||
    (match h.xRequestId with
     | some r => hasSub r "test"
     | none => false)

/-- Run the dispatched handler on a built event and convert its outcome
to the route's HTTP response (routes file 202-222). -/
def processEvent (w : World) (now : Nat) (dbUrl : String) (ev : EventRec)
    (bypass : Bool) : RouteOutcome :=
  match (handleWebhookEvent w now dbUrl ev).2 with
  | .ok _ => { response := .ok200, bypassUsed := bypass, event := some ev }
  | .error er =>
      { response := .serverError er.message, bypassUsed := bypass, event := some ev }

/-- Event built by the bypass path (routes file 177-191) from a parsed
payload: default id when the payload id is falsy, and the top-level
_customerMock copied into data.object when present. -/
def bypassEvent (now : Nat) (p : RawPayload) (obj : EventObj) : EventRec :=
  { id := match p.id with
          | some i => if i == "" then "evt_test_" ++ toString now else i
          | none => "evt_test_" ++ toString now
    type := p.type.getD ""
    obj := if p.customerMock.isSome then { obj with customerMock := p.customerMock }
           else obj }

/-- Embedding of the POST /webhook route (routes file 113-223). Inputs
model the externals: `parsed` is the JSON.parse result of the raw body,
`constructResult` the outcome of stripe.webhooks.constructEvent applied
to the untouched raw body, the signing secret and the signature header
(`.error` models the throw on a malformed or mismatched signature). The
bypass branch is taken when test mode is detected or the signature
header is falsy or the secret is falsy; only otherwise does signed
verification run. -/
def webhookRoute (w : World) (now : Nat) (dbUrl : String) (secret : Option String)
    (h : Headers) (parsed : Option RawPayload)
    (constructResult : Except Err EventRec) : RouteOutcome :=
  if isTestMode h || !truthy h.stripeSignature || !truthy secret then
    match parsed with
    | none => { response := .badRequest "Invalid JSON", bypassUsed := true, event := none }
    | some p =>
        match p.dataObject with
        | none =>
            { response := .badRequest "Invalid Stripe event structure",
              bypassUsed := true, event := none }
        | some obj =>
            if !truthy p.type then
              { response := .badRequest "Invalid Stripe event structure",
                bypassUsed := true, event := none }
            else
              processEvent w now dbUrl (bypassEvent now p obj) true
  else
    match constructResult with
    | .error er =>
        { response := .badRequest ("Webhook Error: " ++ er.message),
          bypassUsed := false, event := none }
    | .ok ev => processEvent w now dbUrl ev false

/-! ## Action classifiers and trace measures -/

/-- Actions that touch the internal database service. -/
def isDbAction : Action → Bool
  | .dbGetUser _ => true
  | .dbPostSubscription _ => true
  | .dbPutUserSub _ _ => true
  | .dbHealth => true
  | _ => false

/-- Actions that dispatch a notification (subscription category or
invoice email). -/
def isNotifAction : Action → Bool
  | .notifySend _ _ => true
  | .invoiceEmailSend _ => true
  | _ => false

/-- Subscription-category notification dispatches only. -/
def isSubscriptionNotify : Action → Bool
  | .notifySend _ _ => true
  | _ => false

/-- Ordering check: once a notification action occurs, no database action
follows; equivalently every database action precedes every notification
action. -/
def reconBeforeNotif (tr : List Action) : Bool :=
  (tr.dropWhile fun a => !isNotifAction a).all fun a => !isDbAction a

/-- Total milliseconds spent in backoff waits of a dispatcher trace. -/
def waitSum : List NAct → Nat
  | [] => 0
  | NAct.wait n :: rest => n + waitSum rest
  | _ :: rest => waitSum rest

/-- Number of retries performed in a dispatcher trace (each retry is
preceded by exactly one backoff wait). -/
def retryCount (tr : List NAct) : Nat :=
  (tr.filter fun a => match a with | NAct.wait _ => true | _ => false).length

/-- Categories actually accepted by the dispatcher's switch. -/
def supportedCategories : List String :=
  ["new", "ended", "cancelled", "payment_failed",
   "cancellation_scheduled", "reactivated"]

/-! ## Concrete fixtures for counterexamples and witnesses -/

/-- Axios connection-refused error as Node.js raises it. -/
def connRefusedErr : Err :=
  ⟨some "ECONNREFUSED", "connect ECONNREFUSED 127.0.0.1:3006"⟩

/-- Axios error for an HTTP 400 response (no error code field). -/
def badRequestErr : Err :=
  ⟨none, "Request failed with status code 400"⟩

/-- Axios error when the configured 10000ms timeout elapses. -/
def abortTimeoutErr : Err :=
  ⟨some "ECONNABORTED", "timeout of 10000ms exceeded"⟩

/-- Notification service fully reachable. -/
def okNotifWorld : NotifWorld := ⟨fun _ => .ok (), fun _ => .ok ()⟩

/-- Notification service refusing every connection. -/
def downNotifWorld : NotifWorld :=
  ⟨fun _ => .error connRefusedErr, fun _ => .error connRefusedErr⟩

/-- Health endpoint reachable but every POST times out. -/
def postTimeoutNotifWorld : NotifWorld :=
  ⟨fun _ => .ok (), fun _ => .error abortTimeoutErr⟩

/-- Billing-provider subscription detail used by fixtures. -/
def subDetail0 : SubDetail :=
  ⟨"sub_123", "cus_1", "active", 1700000000, 1702592000, false,
   some "Service Premium", 999, some "eur"⟩

/-- World in which every external call succeeds. -/
def okWorld : World :=
  { customerEmail := fun _ => .ok "user@example.com"
    subscriptionDetail := fun _ => .ok subDetail0
    dbUserId := fun _ => .ok "42"
    dbCreateSubscription := fun _ => .ok "77"
    dbPutUser := fun _ _ => .ok ()
    dbHealthCheck := .ok ()
    notify := fun _ _ => .ok ()
    invoicePost := fun _ => .ok () }

/-- World in which every notification dispatch fails with an HTTP 400. -/
def notifyFailWorld : World :=
  { okWorld with notify := fun _ _ => .error badRequestErr }

/-- World in which the user PUT fails with connection refused. -/
def dbDownWorld : World :=
  { okWorld with dbPutUser := fun _ _ => .error connRefusedErr }

/-- Event data object shared by the fixtures: subscription sub_123 of
customer cus_1, active, not scheduled for cancellation, with a test mock
email so handlers resolve a@b.com without a provider call. -/
def baseObj : EventObj :=
  { id := "sub_123", customer := "cus_1", subscription := "sub_123",
    status := "active", cancel_at_period_end := false,
    current_period_end := 1702592000, amount_due := 2000, currency := "eur",
    customerMock := some "a@b.com", subscriptionMock := none }

/-- Same object but scheduled for cancellation at period end. -/
def cancelObj : EventObj := { baseObj with cancel_at_period_end := true }

/-- Fixture timestamp (epoch ms) and database URL (the source default). -/
def now0 : Nat := 1700000000000

/-- Default database service URL from the source. -/
def url0 : String := "http://localhost:3004"

/-- Deleted-subscription event for the fixtures. -/
def evDeleted : EventRec :=
  { id := "evt_del", type := "customer.subscription.deleted", obj := baseObj }

/-- Updated-subscription event scheduled for cancellation. -/
def evUpdatedCancel : EventRec :=
  { id := "evt_upd", type := "customer.subscription.updated", obj := cancelObj }

/-- Headers of a production-style request that carries no signature and
no test marker of any kind. -/
def headersNoSig : Headers :=
  { stripeSignature := none, xTestMode := none, xRequestId := none }

/-- Structurally valid parsed body for the bypass path. -/
def validPayload : RawPayload :=
  { id := some "evt_1", type := some "customer.subscription.updated",
    dataObject := some baseObj, customerMock := some "a@b.com" }

/-- Verification outcome when the signature header is absent: the
provider library throws (no signature to check). -/
def noSigErr : Err :=
  ⟨none, "No signatures found matching the expected signature for payload"⟩

/-- Event object without a test mock, forcing the provider lookup. -/
def stripeObj : EventObj := { baseObj with customerMock := none }

/-- Headers of a production-style request carrying a signature and no
test marker. -/
def sigHeaders : Headers :=
  { stripeSignature := some "t=1,v1=deadbeef", xTestMode := none, xRequestId := none }

/-- Verification outcome for a mismatched signature: the provider
library throws. -/
def badSigErr : Err :=
  ⟨none, "Unable to extract timestamp and signatures from header"⟩

/-- World in which the user PUT fails with an HTTP 400 response. -/
def dbErrWorld : World :=
  { okWorld with dbPutUser := fun _ _ => .error badRequestErr }

/-- World in which every notification dispatch and every invoice-email
POST fails with an HTTP 400. -/
def allNotifFailWorld : World :=
  { okWorld with notify := fun _ _ => .error badRequestErr,
                 invoicePost := fun _ => .error badRequestErr }

/-! ## Helper lemmas -/

/-- Unfolding of attemptSend when the health pre-check fails and the
wrapped error is not retried. -/
theorem attemptSend_health_error_stop (w : NotifWorld) (path : String) (r : Nat) (e : Err)
    (hr : w.health r = .error e)
    (hc : ¬(connRetry (wrapHealthErr e) = true ∧ r < maxRetries)) :
    attemptSend w path r = ([NAct.healthGet none], .error (wrapHealthErr e)) := by
  rw [attemptSend, hr]
  simp only [dif_neg hc]

/-- Unfolding of attemptSend when the health pre-check fails and the
wrapped error is retried. -/
theorem attemptSend_health_error_retry (w : NotifWorld) (path : String) (r : Nat) (e : Err)
    (hr : w.health r = .error e)
    (hc : connRetry (wrapHealthErr e) = true ∧ r < maxRetries) :
    attemptSend w path r =
      (NAct.healthGet none :: NAct.wait (initialBackoff * 2 ^ r) ::
         (attemptSend w path (r + 1)).1, (attemptSend w path (r + 1)).2) := by
  rw [attemptSend, hr]
  simp only [dif_pos hc]

/-- Unfolding of attemptSend when both calls succeed. -/
theorem attemptSend_ok (w : NotifWorld) (path : String) (r : Nat)
    (hh : w.health r = .ok ()) (hp : w.post r = .ok ()) :
    attemptSend w path r =
      ([NAct.healthGet none, NAct.postNotif path (some 10000)], .ok ()) := by
  rw [attemptSend, hh, hp]

/-- Unfolding of attemptSend when the POST fails and is not retried. -/
theorem attemptSend_post_error_stop (w : NotifWorld) (path : String) (r : Nat) (e : Err)
    (hh : w.health r = .ok ()) (hp : w.post r = .error e)
    (hc : ¬(connRetry e = true ∧ r < maxRetries)) :
    attemptSend w path r =
      ([NAct.healthGet none, NAct.postNotif path (some 10000)], .error e) := by
  rw [attemptSend, hh, hp]
  simp only [dif_neg hc]

/-- Unfolding of attemptSend when the POST fails and is retried. -/
theorem attemptSend_post_error_retry (w : NotifWorld) (path : String) (r : Nat) (e : Err)
    (hh : w.health r = .ok ()) (hp : w.post r = .error e)
    (hc : connRetry e = true ∧ r < maxRetries) :
    attemptSend w path r =
      (NAct.healthGet none :: NAct.postNotif path (some 10000) ::
         NAct.wait (initialBackoff * 2 ^ r) :: (attemptSend w path (r + 1)).1,
       (attemptSend w path (r + 1)).2) := by
  rw [attemptSend, hh, hp]
  simp only [dif_pos hc]

/-- Every attempt trace begins with the health GET. -/
theorem attemptSend_head (w : NotifWorld) (path : String) (r : Nat) :
    ∃ rest, (attemptSend w path r).1 = NAct.healthGet none :: rest := by
  rw [attemptSend]
  cases hh : w.health r with
  | error e =>
      dsimp only
      by_cases hc : connRetry (wrapHealthErr e) = true ∧ r < maxRetries
      · rw [dif_pos hc]; exact ⟨_, rfl⟩
      · rw [dif_neg hc]; exact ⟨_, rfl⟩
  | ok u =>
      dsimp only
      cases hp : w.post r with
      | error e =>
          dsimp only
          by_cases hc : connRetry e = true ∧ r < maxRetries
          · rw [dif_pos hc]; exact ⟨_, rfl⟩
          · rw [dif_neg hc]; exact ⟨_, rfl⟩
      | ok v => exact ⟨_, rfl⟩

/-- Splitting a conjunction under List.all. -/
theorem all_and_split {α : Type} {l : List α} {p q : α → Bool}
    (h : l.all (fun a => p a && q a) = true) :
    l.all p = true ∧ l.all q = true := by
  rw [List.all_eq_true] at h
  constructor <;> rw [List.all_eq_true] <;> intro a ha
  · exact (Bool.and_eq_true _ _ |>.mp (h a ha)).1
  · exact (Bool.and_eq_true _ _ |>.mp (h a ha)).2

/-- List.all survives dropWhile. -/
theorem all_dropWhile {α : Type} (p q : α → Bool) (l : List α)
    (h : l.all q = true) : (l.dropWhile p).all q = true := by
  induction l with
  | nil => simp
  | cons a t ih =>
      simp only [List.all_cons, Bool.and_eq_true] at h
      by_cases hp : p a = true
      · rw [List.dropWhile_cons_of_pos hp]; exact ih h.2
      · rw [List.dropWhile_cons_of_neg hp]
        simp only [List.all_cons, Bool.and_eq_true]
        exact ⟨h.1, h.2⟩

/-- A trace whose prefix has no notification action and whose suffix has
no database action satisfies the ordering check. -/
theorem reconBeforeNotif_split (pre post : List Action)
    (hpre : pre.all (fun a => !isNotifAction a) = true)
    (hpost : post.all (fun a => !isDbAction a) = true) :
    reconBeforeNotif (pre ++ post) = true := by
  induction pre with
  | nil =>
      simp only [List.nil_append, reconBeforeNotif]
      exact all_dropWhile _ _ _ hpost
  | cons a t ih =>
      simp only [List.all_cons, Bool.and_eq_true] at hpre
      have hstep : (a :: (t ++ post)).dropWhile (fun x => !isNotifAction x)
          = (t ++ post).dropWhile (fun x => !isNotifAction x) :=
        List.dropWhile_cons_of_pos hpre.1
      simp only [List.cons_append, reconBeforeNotif, hstep]
      exact ih hpre.2

/-- Trace of the shared email-resolution step: never a database nor a
notification action. -/
theorem resolveEmail_tame (w : World) (m : Option String) (c : String) :
    (resolveEmail w m c).1.all
      (fun a => !isDbAction a && !isNotifAction a) = true := by
  unfold resolveEmail
  split <;> simp [isDbAction, isNotifAction]

/-- Trace of the invoice resolution step: never a database nor a
notification action. -/
theorem resolveInvoice_tame (w : World) (now : Nat) (inv : EventObj) :
    (resolveInvoice w now inv).1.all
      (fun a => !isDbAction a && !isNotifAction a) = true := by
  unfold resolveInvoice
  split
  · simp
  · split <;> (try split) <;> simp [isDbAction, isNotifAction]

/-- Trace of updateUserSubscriptionEnd: empty or one PUT. -/
theorem updateEnd_trace (w : World) (dbUrl email : String) (endMs : Nat) :
    (updateUserSubscriptionEnd w dbUrl email endMs).1 = [] ∨
    (updateUserSubscriptionEnd w dbUrl email endMs).1 =
      [Action.dbPutUserSub email (endDateUpdate endMs)] := by
  unfold updateUserSubscriptionEnd
  split
  · exact Or.inl rfl
  · exact Or.inr rfl

/-- The invoice-paid handler never dispatches a subscription-category
notification: its trace holds only provider retrievals, the user PUT and
the invoice email POST. -/
theorem invoicePaid_no_subNotify (w : World) (now : Nat) (dbUrl : String)
    (inv : EventObj) :
    ((handleInvoicePaid w now dbUrl inv).1.all
      fun a => !isSubscriptionNotify a) = true := by
  have htame := resolveInvoice_tame w now inv
  have hsub : (resolveInvoice w now inv).1.all
      (fun a => !isSubscriptionNotify a) = true := by
    obtain ⟨-, hnot⟩ := all_and_split htame
    rw [List.all_eq_true] at hnot ⊢
    intro a ha
    have := hnot a ha
    cases a <;> simp_all [isNotifAction, isSubscriptionNotify]
  unfold handleInvoicePaid
  rcases hres : resolveInvoice w now inv with ⟨acts, r⟩
  rw [hres] at hsub
  have hsub2 : ∀ x ∈ acts, (!isSubscriptionNotify x) = true := by
    rw [List.all_eq_true] at hsub
    exact fun x hx => hsub x hx
  have hx2case : ∀ acts2 : List Action, ∀ email : String, ∀ endMs : Nat,
      acts2 = [] ∨ acts2 = [Action.dbPutUserSub email (endDateUpdate endMs)] →
      ∀ x ∈ acts2, (!isSubscriptionNotify x) = true := by
    intro acts2 email endMs h2 x hx
    rcases h2 with h2 | h2
    · rw [h2] at hx; simp at hx
    · rw [h2] at hx
      simp only [List.mem_singleton] at hx
      subst hx; rfl
  cases r with
  | error e => simpa using hsub
  | ok p =>
      rcases p with ⟨email, periodEnd⟩
      dsimp only
      rcases hu : updateUserSubscriptionEnd w dbUrl email (periodEnd * 1000)
        with ⟨acts2, r2⟩
      have hu2 : acts2 = [] ∨ acts2 = [Action.dbPutUserSub email
          (endDateUpdate (periodEnd * 1000))] := by
        have := updateEnd_trace w dbUrl email (periodEnd * 1000)
        rw [hu] at this
        exact this
      cases r2 with
      | error e =>
          dsimp only
          rw [List.all_eq_true]
          intro x hx
          rcases List.mem_append.mp hx with hx1 | hx2
          · exact hsub2 x hx1
          · exact hx2case acts2 email (periodEnd * 1000) hu2 x hx2
      | ok u =>
          dsimp only
          unfold sendInvoiceEmail
          rw [List.all_eq_true]
          intro x hx
          rcases List.mem_append.mp hx with hx12 | hx3
          · rcases List.mem_append.mp hx12 with hx1 | hx2
            · exact hsub2 x hx1
            · exact hx2case acts2 email (periodEnd * 1000) hu2 x hx2
          · rcases List.mem_append.mp hx3 with hpre | hlast
            · by_cases hmk : inv.customerMock.isSome
              · rw [if_pos hmk] at hpre; simp at hpre
              · rw [if_neg hmk] at hpre
                simp only [List.mem_singleton] at hpre
                subst hpre; rfl
            · simp only [List.mem_singleton] at hlast
              subst hlast; rfl

/-! ## Claim C9 -/

/-- C9: for every event whose type is in the closed dispatch set the
switch of handleWebhookEvent invokes exactly the one handler selected by
dispatchTarget, and for every type outside the set processing returns
success with an empty action trace — acknowledged as a no-op, never an
error, with no outbound calls. -/
theorem c9_dispatch (w : World) (now : Nat) (dbUrl : String) (e : EventRec) :
    handleWebhookEvent w now dbUrl e =
      (match dispatchTarget e.type with
       | some h => runHandler w now dbUrl h e.obj
       | none => ([], .ok ())) ∧
    (dispatchTarget e.type).isSome = decide (e.type ∈ dispatchSet) := by
  constructor
  · unfold handleWebhookEvent dispatchTarget runHandler
    split <;> rfl
  · unfold dispatchTarget
    split <;> simp_all [dispatchSet]

/-! ## Claim C10 -/

/-- C10: every delivery attempt first issues the health GET, configured
with no timeout, before any POST; when the pre-check fails the POST of
that attempt is never issued, and the failure is re-wrapped into a fresh
error carrying no code, whose retry classification therefore reduces to
its message containing "timeout" — when it does not, the wrapped error
is thrown to the caller immediately with no retry, and only when it does
is the retry path entered. -/
theorem c10_health_precheck (w w2 : NotifWorld) (path path2 : String) (r r2 : Nat)
    (e : Err) (hr : w.health r = .error e) :
    (∃ rest, (attemptSend w2 path2 r2).1 = NAct.healthGet none :: rest) ∧
    (wrapHealthErr e).code = none ∧
    connRetry (wrapHealthErr e) = hasSub (wrapHealthErr e).message "timeout" ∧
    (hasSub (wrapHealthErr e).message "timeout" = false →
        attemptSend w path r = ([NAct.healthGet none], .error (wrapHealthErr e))) ∧
    (hasSub (wrapHealthErr e).message "timeout" = true → r < maxRetries →
        attemptSend w path r =
          (NAct.healthGet none :: NAct.wait (initialBackoff * 2 ^ r) ::
             (attemptSend w path (r + 1)).1, (attemptSend w path (r + 1)).2)) := by
  refine ⟨attemptSend_head w2 path2 r2, rfl, ?_, ?_, ?_⟩
  · simp [connRetry, wrapHealthErr]
  · intro hT
    refine attemptSend_health_error_stop w path r e hr ?_
    simp only [connRetry, wrapHealthErr] at hT ⊢
    simp [hT]
  · intro hT hlt
    refine attemptSend_health_error_retry w path r e hr ⟨?_, hlt⟩
    simp only [connRetry, wrapHealthErr] at hT ⊢
    simp [hT]

/-- Witness for C10 at a concrete input: the notification service
refuses the very first health pre-check, and the dispatcher throws the
re-wrapped, code-less error at once with no POST and no retry. -/
theorem c10_health_precheck_witness :
    downNotifWorld.health 0 = .error connRefusedErr ∧
    attemptSend downNotifWorld "/notifications/subscription/cancelled" 0 =
      ([NAct.healthGet none], .error (wrapHealthErr connRefusedErr)) :=
  ⟨rfl, (c10_health_precheck downNotifWorld downNotifWorld
      "/notifications/subscription/cancelled" "/x" 0 0 connRefusedErr rfl).2.2.2.1
      (by decide)⟩

/-! ## Claim C7 -/

/-- C7 counterexample: the claim says every delivery failing with a
connection-level error is retried 3 times with backoff; but with the
service refusing connections the failure is caught by the health
pre-check, re-wrapped without its ECONNREFUSED code, and thrown after
the very first attempt: zero retries, zero backoff waits. -/
theorem c7_counterexample :
    connRetry connRefusedErr = true ∧
    sendSubscriptionNotification downNotifWorld "a@b.com" "new" =
      ([NAct.healthGet none], .error (wrapHealthErr connRefusedErr)) ∧
    retryCount (sendSubscriptionNotification downNotifWorld "a@b.com" "new").1 = 0 := by
  have hrun : sendSubscriptionNotification downNotifWorld "a@b.com" "new" =
      ([NAct.healthGet none], .error (wrapHealthErr connRefusedErr)) := by
    unfold sendSubscriptionNotification
    rw [if_neg (by decide)]
    show attemptSend downNotifWorld "/notifications/subscription/start" 0 = _
    exact attemptSend_health_error_stop _ _ _ _ rfl (by decide)
  refine ⟨by decide, hrun, ?_⟩
  rw [hrun]
  rfl

/-- C7 amended: a POST failure classified as connection-level (code in
the retry set, or message containing "timeout") is retried up to exactly
maxRetries = 3 times with backoff waits of 1000, 2000 and 4000 ms (total
7000 ms) and the final failure is surfaced to the caller untouched,
while a failure not so classified — such as an HTTP 4xx response, whose
axios error carries no code — is never retried; connection failures
caught by the health pre-check do not enter this path (see C10). -/
theorem c7_retry_discipline (w : NotifWorld) (path : String) (e e2 : Err)
    (hh : ∀ i, w.health i = .ok ())
    (hp : ∀ i, w.post i = .error e)
    (hc : connRetry e = true)
    (hnc : connRetry e2 = false) :
    attemptSend w path 0 =
      ([NAct.healthGet none, NAct.postNotif path (some 10000), NAct.wait 1000,
        NAct.healthGet none, NAct.postNotif path (some 10000), NAct.wait 2000,
        NAct.healthGet none, NAct.postNotif path (some 10000), NAct.wait 4000,
        NAct.healthGet none, NAct.postNotif path (some 10000)], .error e) ∧
    waitSum (attemptSend w path 0).1 = 7000 ∧
    retryCount (attemptSend w path 0).1 = 3 ∧
    (∀ w3 : NotifWorld, ∀ r3 : Nat, w3.health r3 = .ok () → w3.post r3 = .error e2 →
        attemptSend w3 path r3 =
          ([NAct.healthGet none, NAct.postNotif path (some 10000)], .error e2)) := by
  have h3 : attemptSend w path 3 =
      ([NAct.healthGet none, NAct.postNotif path (some 10000)], .error e) :=
    attemptSend_post_error_stop w path 3 e (hh 3) (hp 3)
      (by simp [maxRetries])
  have h2 := attemptSend_post_error_retry w path 2 e (hh 2) (hp 2)
    ⟨hc, by norm_num [maxRetries]⟩
  have h1 := attemptSend_post_error_retry w path 1 e (hh 1) (hp 1)
    ⟨hc, by norm_num [maxRetries]⟩
  have h0 := attemptSend_post_error_retry w path 0 e (hh 0) (hp 0)
    ⟨hc, by norm_num [maxRetries]⟩
  have key : attemptSend w path 0 =
      ([NAct.healthGet none, NAct.postNotif path (some 10000), NAct.wait 1000,
        NAct.healthGet none, NAct.postNotif path (some 10000), NAct.wait 2000,
        NAct.healthGet none, NAct.postNotif path (some 10000), NAct.wait 4000,
        NAct.healthGet none, NAct.postNotif path (some 10000)], .error e) := by
    rw [h0, h1, h2, h3]
    norm_num [initialBackoff]
  refine ⟨key, ?_, ?_, ?_⟩
  · rw [key]; rfl
  · rw [key]; rfl
  · intro w3 r3 hh3 hp3
    exact attemptSend_post_error_stop w3 path r3 e2 hh3 hp3 (by simp [hnc])

/-- Witness for C7 amended at a concrete input: every POST times out
(ECONNABORTED), the run performs the three retries and surfaces the
timeout error. -/
theorem c7_retry_discipline_witness :
    connRetry abortTimeoutErr = true ∧ connRetry badRequestErr = false ∧
    attemptSend postTimeoutNotifWorld "/notifications/subscription/start" 0 =
      ([NAct.healthGet none,
        NAct.postNotif "/notifications/subscription/start" (some 10000), NAct.wait 1000,
        NAct.healthGet none,
        NAct.postNotif "/notifications/subscription/start" (some 10000), NAct.wait 2000,
        NAct.healthGet none,
        NAct.postNotif "/notifications/subscription/start" (some 10000), NAct.wait 4000,
        NAct.healthGet none,
        NAct.postNotif "/notifications/subscription/start" (some 10000)],
       .error abortTimeoutErr) :=
  ⟨by decide, by decide,
   (c7_retry_discipline postTimeoutNotifWorld "/notifications/subscription/start"
      abortTimeoutErr badRequestErr (fun _ => rfl) (fun _ => rfl)
      (by decide) (by decide)).1⟩

/-! ## Claim C8 -/

/-- C8 counterexample: the claim places "renewed" and "updated" inside
the accepted category enum, but the dispatcher's switch has no case for
either and rejects them through its default branch before any network
call. -/
theorem c8_counterexample :
    validEmail "a@b.com" = true ∧
    endpointFor "renewed" = none ∧ endpointFor "updated" = none ∧
    sendSubscriptionNotification okNotifWorld "a@b.com" "renewed" =
      ([], .error ⟨none, "Type de notification non pris en charge: renewed"⟩) := by
  exact ⟨by decide, rfl, rfl, rfl⟩

/-- C8 amended: the dispatcher fails fast before any network action
exactly when the email is empty or lacks an @ (InvalidRecipient) or the
category is outside the accepted enum {new, ended, cancelled,
payment_failed, cancellation_scheduled, reactivated} (UnknownCategory);
every accepted category is mapped to its fixed endpoint path and
category-specific payload shape and proceeds to delivery. The claimed
categories "renewed" and "updated" are not in the accepted enum. -/
theorem c8_validation (w : NotifWorld) (email category : String) :
    (validEmail email = false →
        sendSubscriptionNotification w email category =
          ([], .error ⟨none, "Email invalide ou manquant: \"" ++ email ++ "\""⟩)) ∧
    (validEmail email = true → endpointFor category = none →
        sendSubscriptionNotification w email category =
          ([], .error ⟨none, "Type de notification non pris en charge: " ++ category⟩)) ∧
    (∀ path, validEmail email = true → endpointFor category = some path →
        sendSubscriptionNotification w email category = attemptSend w path 0) ∧
    (endpointFor category).isSome = decide (category ∈ supportedCategories) ∧
    (payloadShapeFor category).isSome = (endpointFor category).isSome := by
  refine ⟨?_, ?_, ?_, ?_, ?_⟩
  · intro hv
    unfold sendSubscriptionNotification
    rw [if_pos hv]
  · intro hv hcat
    unfold sendSubscriptionNotification
    rw [if_neg (by simp [hv]), hcat]
  · intro path hv hcat
    unfold sendSubscriptionNotification
    rw [if_neg (by simp [hv]), hcat]
  · unfold endpointFor
    split <;> simp_all [supportedCategories]
  · unfold payloadShapeFor endpointFor
    split <;> first
      | rfl
      | (split <;> simp_all)

/-- Witness for C8 amended at concrete inputs: the empty email is
rejected fast with no network action. -/
theorem c8_validation_witness :
    validEmail "" = false ∧
    sendSubscriptionNotification okNotifWorld "" "new" =
      ([], .error ⟨none, "Email invalide ou manquant: \"" ++ "" ++ "\""⟩) :=
  ⟨by decide, (c8_validation okNotifWorld "" "new").1 (by decide)⟩

/-- A trace with no notification action trivially satisfies the
ordering check. -/
theorem reconBeforeNotif_of_noNotif (l : List Action)
    (h : (l.all fun a => !isNotifAction a) = true) :
    reconBeforeNotif l = true := by
  have := reconBeforeNotif_split l [] h (by simp)
  simpa using this

/-- Trace of the checkout subscription block: never a notification
action. -/
theorem checkoutSubBlock_no_notify (w : World) (uid : String) (s : EventObj)
    (now : Nat) :
    ((checkoutSubBlock w uid s now).1.all fun a => !isNotifAction a) = true := by
  unfold checkoutSubBlock
  dsimp only
  split
  · split <;> simp [isNotifAction]
  · split
    · simp [isNotifAction]
    · split <;> simp [isNotifAction]

/-- Ordering within the subscription-updated handler. -/
theorem recon_updated (w : World) (sub : EventObj) :
    reconBeforeNotif (handleSubscriptionUpdated w sub).1 = true := by
  have htame := resolveEmail_tame w sub.customerMock sub.customer
  obtain ⟨-, hnot⟩ := all_and_split htame
  unfold handleSubscriptionUpdated
  rcases hres : resolveEmail w sub.customerMock sub.customer with ⟨acts, r⟩
  rw [hres] at hnot
  cases r with
  | error e => exact reconBeforeNotif_of_noNotif acts (by simpa using hnot)
  | ok email =>
      dsimp only
      split
      · exact reconBeforeNotif_split acts _ (by simpa using hnot)
          (by simp [isDbAction])
      · split
        · exact reconBeforeNotif_split acts _ (by simpa using hnot)
            (by simp [isDbAction])
        · exact reconBeforeNotif_of_noNotif acts (by simpa using hnot)

/-- Ordering within the subscription-deleted handler: the user PUT
precedes the ended notification. -/
theorem recon_deleted (w : World) (now : Nat) (sub : EventObj) :
    reconBeforeNotif (handleSubscriptionDeleted w now sub).1 = true := by
  have htame := resolveEmail_tame w sub.customerMock sub.customer
  obtain ⟨-, hnot⟩ := all_and_split htame
  unfold handleSubscriptionDeleted
  rcases hres : resolveEmail w sub.customerMock sub.customer with ⟨acts, r⟩
  rw [hres] at hnot
  cases r with
  | error e => exact reconBeforeNotif_of_noNotif acts (by simpa using hnot)
  | ok email =>
      dsimp only
      have hshape : acts ++ [Action.dbPutUserSub email (deletedUserUpdate now),
          Action.notifySend email "ended"] =
          (acts ++ [Action.dbPutUserSub email (deletedUserUpdate now)]) ++
            [Action.notifySend email "ended"] := by simp
      rw [hshape]
      refine reconBeforeNotif_split _ _ ?_ (by simp [isDbAction])
      rw [List.all_append]
      exact (Bool.and_eq_true _ _).mpr
        ⟨by simpa using hnot, by simp [isNotifAction]⟩

/-- Ordering within the payment-failed handler (no database action). -/
theorem recon_paymentFailed (w : World) (inv : EventObj) :
    reconBeforeNotif (handlePaymentFailed w inv).1 = true := by
  have htame := resolveEmail_tame w inv.customerMock inv.customer
  obtain ⟨-, hnot⟩ := all_and_split htame
  unfold handlePaymentFailed
  rcases hres : resolveEmail w inv.customerMock inv.customer with ⟨acts, r⟩
  rw [hres] at hnot
  cases r with
  | error e => exact reconBeforeNotif_of_noNotif acts (by simpa using hnot)
  | ok email =>
      dsimp only
      exact reconBeforeNotif_split acts _ (by simpa using hnot)
        (by simp [isDbAction])

/-- Ordering within the invoice-paid handler: the user PUT precedes the
invoice email. -/
theorem recon_invoicePaid (w : World) (now : Nat) (dbUrl : String) (inv : EventObj) :
    reconBeforeNotif (handleInvoicePaid w now dbUrl inv).1 = true := by
  have htame := resolveInvoice_tame w now inv
  obtain ⟨-, hnot⟩ := all_and_split htame
  unfold handleInvoicePaid
  rcases hres : resolveInvoice w now inv with ⟨acts, r⟩
  rw [hres] at hnot
  cases r with
  | error e => exact reconBeforeNotif_of_noNotif acts (by simpa using hnot)
  | ok p =>
      rcases p with ⟨email, periodEnd⟩
      dsimp only
      rcases hu : updateUserSubscriptionEnd w dbUrl email (periodEnd * 1000)
        with ⟨acts2, r2⟩
      have hu2 := updateEnd_trace w dbUrl email (periodEnd * 1000)
      rw [hu] at hu2
      have hacts2 : (acts2.all fun a => !isNotifAction a) = true := by
        rcases hu2 with h2 | h2 <;> dsimp only at h2 <;> rw [h2] <;>
          simp [isNotifAction]
      cases r2 with
      | error e =>
          dsimp only
          refine reconBeforeNotif_of_noNotif _ ?_
          rw [List.all_append]
          exact (Bool.and_eq_true _ _).mpr ⟨by simpa using hnot, hacts2⟩
      | ok u =>
          dsimp only
          unfold sendInvoiceEmail
          dsimp only
          have hassoc : acts ++ acts2 ++
              ((if inv.customerMock.isSome then ([] : List Action)
                else [Action.stripeGetInvoice inv.id]) ++
               [Action.invoiceEmailSend email]) =
              (acts ++ acts2 ++
                (if inv.customerMock.isSome then ([] : List Action)
                 else [Action.stripeGetInvoice inv.id])) ++
                [Action.invoiceEmailSend email] := by simp
          rw [hassoc]
          refine reconBeforeNotif_split _ _ ?_ (by simp [isDbAction])
          rw [List.all_append, List.all_append]
          refine (Bool.and_eq_true _ _).mpr
            ⟨(Bool.and_eq_true _ _).mpr ⟨by simpa using hnot, hacts2⟩, ?_⟩
          by_cases hmk : inv.customerMock.isSome <;> simp [hmk, isNotifAction]

/-- Ordering within the checkout handler: all database work precedes the
new-subscription notification. -/
theorem recon_checkout (w : World) (now : Nat) (s : EventObj) :
    reconBeforeNotif (handleCheckoutSessionCompleted w now s).1 = true := by
  have htame := resolveEmail_tame w s.customerMock s.customer
  obtain ⟨-, hnot⟩ := all_and_split htame
  unfold handleCheckoutSessionCompleted
  rcases hres : resolveEmail w s.customerMock s.customer with ⟨acts, r⟩
  rw [hres] at hnot
  cases r with
  | error e => exact reconBeforeNotif_of_noNotif acts (by simpa using hnot)
  | ok email =>
      dsimp only
      cases hus : w.dbUserId email with
      | error e =>
          dsimp only
          refine reconBeforeNotif_of_noNotif _ ?_
          rw [List.all_append]
          exact (Bool.and_eq_true _ _).mpr
            ⟨by simpa using hnot, by simp [isNotifAction]⟩
      | ok userId =>
          dsimp only
          rcases hsb : checkoutSubBlock w userId s now with ⟨acts3, subOpt, sid⟩
          have hacts3 := checkoutSubBlock_no_notify w userId s now
          rw [hsb] at hacts3
          dsimp only
          refine reconBeforeNotif_split _ _ ?_ (by simp [isDbAction])
          rw [List.all_append, List.all_append]
          refine (Bool.and_eq_true _ _).mpr ⟨(Bool.and_eq_true _ _).mpr ⟨?_, ?_⟩, ?_⟩
          · rw [List.all_append]
            exact (Bool.and_eq_true _ _).mpr
              ⟨by simpa using hnot, by simp [isNotifAction]⟩
          · simpa using hacts3
          · simp [isNotifAction]

/-! ## Claims C2 and C3 -/

/-- C2 counterexample: a subscription-updated event scheduled for
cancellation is processed with a single notification dispatch and no
database action whatsoever — the handler neither resolves nor updates
any internal Subscription record, so the claimed autoRenew/status
reconciliation cannot and does not happen. -/
theorem c2_counterexample :
    handleSubscriptionUpdated okWorld cancelObj =
      ([Action.notifySend "a@b.com" "cancellation_scheduled"], .ok ()) ∧
    ((handleSubscriptionUpdated okWorld cancelObj).1.all fun a => !isDbAction a) = true := by
  exact ⟨rfl, rfl⟩

/-- C2 amended: the subscription-updated handler resolves only the
customer email and dispatches a cancellation_scheduled notification when
cancel_at_period_end is true, a reactivated notification when the status
is active and cancel_at_period_end is false; it performs no database
action at all — no internal Subscription record is resolved or has its
status, isActive, autoRenew or end-date fields updated. -/
theorem c2_subscription_updated (w : World) (sub : EventObj) (acts : List Action)
    (email : String)
    (hres : resolveEmail w sub.customerMock sub.customer = (acts, .ok email)) :
    ((handleSubscriptionUpdated w sub).1.all fun a => !isDbAction a) = true ∧
    (sub.cancel_at_period_end = true →
        handleSubscriptionUpdated w sub =
          (acts ++ [Action.notifySend email "cancellation_scheduled"],
           w.notify email "cancellation_scheduled")) ∧
    (sub.cancel_at_period_end = false → sub.status = "active" →
        handleSubscriptionUpdated w sub =
          (acts ++ [Action.notifySend email "reactivated"],
           w.notify email "reactivated")) := by
  have htame := resolveEmail_tame w sub.customerMock sub.customer
  rw [hres] at htame
  obtain ⟨hdb, -⟩ := all_and_split htame
  refine ⟨?_, ?_, ?_⟩
  · unfold handleSubscriptionUpdated
    rw [hres]
    dsimp only
    split
    · rw [List.all_append]
      exact (Bool.and_eq_true _ _).mpr ⟨by simpa using hdb, by simp [isDbAction]⟩
    · split
      · rw [List.all_append]
        exact (Bool.and_eq_true _ _).mpr ⟨by simpa using hdb, by simp [isDbAction]⟩
      · simpa using hdb
  · intro hcp
    unfold handleSubscriptionUpdated
    rw [hres]
    dsimp only
    rw [if_pos hcp]
  · intro hcp hst
    unfold handleSubscriptionUpdated
    rw [hres]
    dsimp only
    rw [if_neg (by simp [hcp]), if_pos (by simp [hcp, hst])]

/-- Witness for C2 amended at a concrete input: the reactivation case,
with the email resolved through the provider. -/
theorem c2_subscription_updated_witness :
    handleSubscriptionUpdated okWorld stripeObj =
      ([Action.stripeGetCustomer "cus_1",
        Action.notifySend "user@example.com" "reactivated"], .ok ()) := by
  have h := (c2_subscription_updated okWorld stripeObj
      [Action.stripeGetCustomer "cus_1"] "user@example.com" rfl).2.2 rfl rfl
  simpa using h

/-- C3 counterexample: a subscription-deleted event with an existing
internal record keyed by sub_123 is processed by PUTting the user record
and dispatching one ended notification; no database action resolves the
internal Subscription record by provider id and none marks its status
terminal — the only database action is the user-record PUT. -/
theorem c3_counterexample :
    handleSubscriptionDeleted okWorld now0 baseObj =
      ([Action.dbPutUserSub "a@b.com" (deletedUserUpdate now0),
        Action.notifySend "a@b.com" "ended"], .ok ()) ∧
    ((handleSubscriptionDeleted okWorld now0 baseObj).1.filter isDbAction) =
      [Action.dbPutUserSub "a@b.com" (deletedUserUpdate now0)] := by
  exact ⟨rfl, rfl⟩

/-- C3 amended: the subscription-deleted handler resolves the customer
email, PUTs the user record with isSubscribed = false (swallowing a PUT
failure), and dispatches exactly one ended notification to the resolved
email; it does not resolve the internal Subscription record by provider
id and does not mark its status terminal. -/
theorem c3_subscription_deleted (w : World) (now : Nat) (sub : EventObj)
    (acts : List Action) (email : String)
    (hres : resolveEmail w sub.customerMock sub.customer = (acts, .ok email)) :
    handleSubscriptionDeleted w now sub =
      (acts ++ [Action.dbPutUserSub email (deletedUserUpdate now),
                Action.notifySend email "ended"],
       w.notify email "ended") ∧
    ((handleSubscriptionDeleted w now sub).1.filter isNotifAction) =
      [Action.notifySend email "ended"] ∧
    (deletedUserUpdate now).isSubscribed = some false := by
  have htame := resolveEmail_tame w sub.customerMock sub.customer
  rw [hres] at htame
  obtain ⟨-, hnot⟩ := all_and_split htame
  have hmain : handleSubscriptionDeleted w now sub =
      (acts ++ [Action.dbPutUserSub email (deletedUserUpdate now),
                Action.notifySend email "ended"],
       w.notify email "ended") := by
    unfold handleSubscriptionDeleted
    rw [hres]
  refine ⟨hmain, ?_, rfl⟩
  rw [hmain]
  rw [List.all_eq_true] at hnot
  simp only [List.filter_append]
  rw [List.filter_eq_nil_iff.mpr (fun a ha => by simpa using hnot a ha)]
  rfl

/-- Witness for C3 amended at a concrete input, with the email resolved
through the provider. -/
theorem c3_subscription_deleted_witness :
    handleSubscriptionDeleted okWorld now0 stripeObj =
      ([Action.stripeGetCustomer "cus_1",
        Action.dbPutUserSub "user@example.com" (deletedUserUpdate now0),
        Action.notifySend "user@example.com" "ended"], .ok ()) := by
  have h := (c3_subscription_deleted okWorld now0 stripeObj
      [Action.stripeGetCustomer "cus_1"] "user@example.com" rfl).1
  simpa using h

/-! ## Claim C4 -/

/-- C4 counterexample: an invoice.paid event is processed with exactly
one user-record PUT (end date only) and one invoice email; no "renewed"
notification — no subscription-category notification at all — is
dispatched, so the claimed renewed notification does not exist. -/
theorem c4_counterexample :
    handleInvoicePaid okWorld now0 url0 baseObj =
      ([Action.dbPutUserSub "a@b.com" (endDateUpdate ((now0 / 1000 + 2592000) * 1000)),
        Action.invoiceEmailSend "a@b.com"], .ok ()) ∧
    ((handleInvoicePaid okWorld now0 url0 baseObj).1.filter isSubscriptionNotify) = [] := by
  exact ⟨rfl, rfl⟩

/-- C4 amended: the invoice-paid handler resolves the email and period
end (via the provider or the test mock — the hypothesis fixes only the
outcome of the resolution step, covering both paths), PUTs only the
user's subscriptionEndDate, and dispatches the invoice-receipt email;
on every input whatsoever it dispatches no subscription-category
notification (in particular no "renewed", which the notification switch
does not even support), and it does not touch the internal Subscription
record or the user's isSubscribed flag. -/
theorem c4_invoice_paid (w : World) (now : Nat) (dbUrl : String) (inv : EventObj)
    (email : String) (periodEnd : Nat) (acts pacts : List Action)
    (hres : resolveInvoice w now inv = (acts, .ok (email, periodEnd)))
    (hput : updateUserSubscriptionEnd w dbUrl email (periodEnd * 1000) =
      (pacts, .ok ())) :
    (∀ w2 : World, ∀ now2 : Nat, ∀ dbUrl2 : String, ∀ inv2 : EventObj,
        ((handleInvoicePaid w2 now2 dbUrl2 inv2).1.all
          fun a => !isSubscriptionNotify a) = true) ∧
    handleInvoicePaid w now dbUrl inv =
      (acts ++ pacts ++
        ((if inv.customerMock.isSome then ([] : List Action)
          else [Action.stripeGetInvoice inv.id]) ++
         [Action.invoiceEmailSend email]),
       w.invoicePost email) := by
  refine ⟨fun w2 now2 dbUrl2 inv2 => invoicePaid_no_subNotify w2 now2 dbUrl2 inv2, ?_⟩
  unfold handleInvoicePaid
  rw [hres]
  dsimp only
  rw [hput]
  dsimp only
  unfold sendInvoiceEmail
  dsimp only

/-- Witness for C4 amended at a concrete input on the provider path: no
test mock, so the subscription and customer are retrieved from the
provider, the user PUT carries the period end from the retrieved
subscription, and the invoice email is dispatched. -/
theorem c4_invoice_paid_witness :
    handleInvoicePaid okWorld now0 url0 stripeObj =
      ([Action.stripeGetSubscription "sub_123", Action.stripeGetCustomer "cus_1",
        Action.dbPutUserSub "user@example.com" (endDateUpdate 1702592000000),
        Action.stripeGetInvoice "sub_123",
        Action.invoiceEmailSend "user@example.com"], .ok ()) := by
  have h := (c4_invoice_paid okWorld now0 url0 stripeObj "user@example.com"
      1702592000
      [Action.stripeGetSubscription "sub_123", Action.stripeGetCustomer "cus_1"]
      [Action.dbPutUserSub "user@example.com" (endDateUpdate 1702592000000)]
      rfl rfl).2
  exact h.trans rfl

/-! ## Claim C6 -/

/-- C6 counterexample: a connection-refused failure of the user PUT in
updateUserSubscriptionEnd is not propagated: the call site converts it
into a simulated success, returning ok. -/
theorem c6_counterexample :
    dbDownWorld.dbPutUser "a@b.com" (endDateUpdate 1702592000000) =
      .error connRefusedErr ∧
    connRefusedErr.code = some "ECONNREFUSED" ∧
    updateUserSubscriptionEnd dbDownWorld url0 "a@b.com" 1702592000000 =
      ([Action.dbPutUserSub "a@b.com" (endDateUpdate 1702592000000)], .ok ()) := by
  exact ⟨rfl, rfl, rfl⟩

/-- C6 amended: database calls are never retried — updateUserSubscriptionEnd
issues its PUT exactly once — and a failure whose code is neither
ECONNREFUSED nor ENOTFOUND is propagated immediately and untouched; but
a connection-level failure (ECONNREFUSED or ENOTFOUND) is converted into
a simulated success at this call site instead of being propagated. -/
theorem c6_db_propagation (w : World) (dbUrl email : String) (endMs : Nat) (e : Err)
    (hurl : (dbUrl == "" || hasSub dbUrl "undefined") = false) :
    (updateUserSubscriptionEnd w dbUrl email endMs).1 =
      [Action.dbPutUserSub email (endDateUpdate endMs)] ∧
    (w.dbPutUser email (endDateUpdate endMs) = .error e →
      (e.code == some "ECONNREFUSED" || e.code == some "ENOTFOUND") = false →
      (updateUserSubscriptionEnd w dbUrl email endMs).2 = .error e) ∧
    (w.dbPutUser email (endDateUpdate endMs) = .error e →
      (e.code == some "ECONNREFUSED" || e.code == some "ENOTFOUND") = true →
      (updateUserSubscriptionEnd w dbUrl email endMs).2 = .ok ()) := by
  unfold updateUserSubscriptionEnd
  rw [if_neg (by simp_all)]
  refine ⟨rfl, ?_, ?_⟩
  · intro hput hcode
    rw [hput]
    dsimp only
    rw [if_neg (by simp [hcode])]
  · intro hput hcode
    rw [hput]
    dsimp only
    rw [if_pos hcode]

/-- Witness for C6 amended at a concrete input: an HTTP 400 failure of
the PUT is propagated untouched. -/
theorem c6_db_propagation_witness :
    updateUserSubscriptionEnd dbErrWorld url0 "a@b.com" 5 =
      ([Action.dbPutUserSub "a@b.com" (endDateUpdate 5)], .error badRequestErr) := by
  have h := c6_db_propagation dbErrWorld url0 "a@b.com" 5 badRequestErr (by decide)
  have h1 := h.1
  have h2 := h.2.1 rfl (by decide)
  rcases hval : updateUserSubscriptionEnd dbErrWorld url0 "a@b.com" 5 with ⟨tr, res⟩
  rw [hval] at h1 h2
  simp only at h1 h2
  rw [h1, h2]

/-! ## Claim C5 -/

/-- C5 counterexample: a subscription-deleted event whose notification
dispatch fails with an HTTP 400 performs its database reconciliation and
then rethrows the notification error: the handler throws, so webhook
processing is reported failed — notification failures are not swallowed
here, contrary to the claim. -/
theorem c5_counterexample :
    handleWebhookEvent notifyFailWorld now0 url0 evDeleted =
      ([Action.dbPutUserSub "a@b.com" (deletedUserUpdate now0),
        Action.notifySend "a@b.com" "ended"], .error badRequestErr) := by
  rfl

/-- C5 amended: for every recognized event type database reconciliation
actions precede notification dispatch in the handler's call order, and a
notification failure is swallowed in the checkout-completed handler
(whose outcome does not depend on the notification oracle at all); but
in each of the subscription-deleted, subscription-updated,
payment-failed and invoice-paid handlers a notification (or
invoice-email) failure propagates out of the handler, causing webhook
processing to be reported failed — without unwinding the reconciliation
already performed. -/
theorem c5_ordering_and_swallowing (w : World) (now : Nat) (dbUrl : String)
    (e : EventRec) (f : String → String → Except Err Unit)
    (s sub inv : EventObj) (acts acts2 pacts : List Action)
    (email email2 : String) (periodEnd : Nat) (er : Err)
    (hsub : resolveEmail w sub.customerMock sub.customer = (acts, .ok email))
    (hcancel : sub.cancel_at_period_end = true)
    (hnotAll : ∀ em cat : String, w.notify em cat = .error er)
    (hinvres : resolveInvoice w now inv = (acts2, .ok (email2, periodEnd)))
    (hput : updateUserSubscriptionEnd w dbUrl email2 (periodEnd * 1000) =
      (pacts, .ok ()))
    (hinvpost : w.invoicePost email2 = .error er) :
    reconBeforeNotif (handleWebhookEvent w now dbUrl e).1 = true ∧
    handleCheckoutSessionCompleted { w with notify := f } now s =
      handleCheckoutSessionCompleted w now s ∧
    (handleSubscriptionDeleted w now sub).2 = .error er ∧
    (handleSubscriptionUpdated w sub).2 = .error er ∧
    (handlePaymentFailed w sub).2 = .error er ∧
    (handleInvoicePaid w now dbUrl inv).2 = .error er := by
  refine ⟨?_, rfl, ?_, ?_, ?_, ?_⟩
  · unfold handleWebhookEvent
    split
    · exact recon_checkout w now e.obj
    · exact recon_invoicePaid w now dbUrl e.obj
    · exact recon_paymentFailed w e.obj
    · exact recon_updated w e.obj
    · exact recon_deleted w now e.obj
    · rfl
  · unfold handleSubscriptionDeleted
    rw [hsub]
    dsimp only
    exact hnotAll email "ended"
  · unfold handleSubscriptionUpdated
    rw [hsub]
    dsimp only
    rw [if_pos hcancel]
    exact hnotAll email "cancellation_scheduled"
  · unfold handlePaymentFailed
    rw [hsub]
    dsimp only
    exact hnotAll email "payment_failed"
  · unfold handleInvoicePaid
    rw [hinvres]
    dsimp only
    rw [hput]
    dsimp only
    unfold sendInvoiceEmail
    dsimp only
    exact hinvpost

/-- Witness for C5 amended at concrete inputs: with every notification
and invoice-email POST failing with an HTTP 400, both the
subscription-updated and the invoice-paid handlers surface the error. -/
theorem c5_ordering_and_swallowing_witness :
    (handleSubscriptionUpdated allNotifFailWorld cancelObj).2 =
      .error badRequestErr ∧
    (handleInvoicePaid allNotifFailWorld now0 url0 baseObj).2 =
      .error badRequestErr := by
  have h := c5_ordering_and_swallowing allNotifFailWorld now0 url0 evDeleted
    okWorld.notify baseObj cancelObj baseObj [] []
    [Action.dbPutUserSub "a@b.com"
      (endDateUpdate ((now0 / 1000 + 2592000) * 1000))]
    "a@b.com" "a@b.com" (now0 / 1000 + 2592000) badRequestErr
    rfl rfl (fun _ _ => rfl) rfl rfl rfl
  exact ⟨h.2.2.2.1, h.2.2.2.2.2⟩

/-! ## Claim C1 -/

/-- C1 counterexample: with a signing secret configured, no test marker
header of any kind, and the signature header simply absent, the claim
requires a 400 SignatureInvalid rejection; instead the route takes the
trusted bypass path, parses the body, and acknowledges the event with
200 — even though signature verification (had it run) would have
failed. -/
theorem c1_counterexample :
    truthy (some "whsec_1") = true ∧
    isTestMode headersNoSig = false ∧
    headersNoSig.stripeSignature = none ∧
    webhookRoute okWorld now0 url0 (some "whsec_1") headersNoSig
        (some validPayload) (.error noSigErr) =
      { response := .ok200, bypassUsed := true,
        event := some (bypassEvent now0 validPayload baseObj) } := by
  exact ⟨rfl, rfl, rfl, rfl⟩

/-- C1 amended: the trusted bypass path is taken exactly when a test
marker header is present (x-test-mode equal to "true", or x-request-id
containing "test"), or the signature header is missing or empty, or no
secret is configured; when a secret is configured, a signature header is
present and no test marker is present, the event is accepted only if
verification of the untouched raw body succeeds, and a malformed or
mismatched signature is rejected with HTTP 400. -/
theorem c1_verification_paths (w : World) (now : Nat) (dbUrl : String)
    (secret : Option String) (h : Headers) (parsed : Option RawPayload)
    (constructResult : Except Err EventRec)
    (hsec : truthy secret = true) (hsig : truthy h.stripeSignature = true)
    (htm : isTestMode h = false) :
    (∀ secret2 : Option String, ∀ h2 : Headers, ∀ parsed2 : Option RawPayload,
     ∀ cr2 : Except Err EventRec,
        (webhookRoute w now dbUrl secret2 h2 parsed2 cr2).bypassUsed =
          (isTestMode h2 || !truthy h2.stripeSignature || !truthy secret2)) ∧
    (∀ er, constructResult = .error er →
        webhookRoute w now dbUrl secret h parsed constructResult =
          { response := .badRequest ("Webhook Error: " ++ er.message),
            bypassUsed := false, event := none }) ∧
    (∀ ev, constructResult = .ok ev →
        webhookRoute w now dbUrl secret h parsed constructResult =
          processEvent w now dbUrl ev false) := by
  refine ⟨?_, ?_, ?_⟩
  · intro secret2 h2 parsed2 cr2
    unfold webhookRoute
    by_cases hcond :
        (isTestMode h2 || !truthy h2.stripeSignature || !truthy secret2) = true
    · rw [if_pos hcond, hcond]
      cases parsed2 with
      | none => rfl
      | some p =>
          dsimp only
          cases hobj : p.dataObject with
          | none => rfl
          | some obj =>
              dsimp only
              by_cases hty : (!truthy p.type) = true
              · rw [if_pos hty]
              · rw [if_neg hty]
                unfold processEvent
                split <;> rfl
    · rw [if_neg hcond]
      rw [Bool.not_eq_true] at hcond
      rw [hcond]
      cases cr2 with
      | error er => rfl
      | ok ev =>
          dsimp only
          unfold processEvent
          split <;> rfl
  · intro er hcr
    unfold webhookRoute
    rw [if_neg (by simp [htm, hsig, hsec]), hcr]
  · intro ev hcr
    unfold webhookRoute
    rw [if_neg (by simp [htm, hsig, hsec]), hcr]

/-- Witness for C1 amended at a concrete input: signature present but
mismatched, so verification throws and the route answers 400. -/
theorem c1_verification_paths_witness :
    webhookRoute okWorld now0 url0 (some "whsec_1") sigHeaders
        (some validPayload) (.error badSigErr) =
      { response := .badRequest ("Webhook Error: " ++ badSigErr.message),
        bypassUsed := false, event := none } :=
  (c1_verification_paths okWorld now0 url0 (some "whsec_1") sigHeaders
      (some validPayload) (.error badSigErr) rfl rfl rfl).2.1 badSigErr rfl

end Payment
